import Mathlib

/-!
Shallow embedding of the time-keeping and gardening core of the
rpgMakerPlugins repository: the TimeSystem class of HDB_Core_TimeClock.js
and the Plant class of HDB_Core_Gardening.js (first plugin revision in the
file, the one the public command surface uses).

JavaScript numeric conventions used throughout the embedding:
- Math.floor(a / b) on integers is Int.fdiv (floor division).
- The JS % operator truncates toward zero: Int.tmod.
- JS numbers are modelled by the rationals where fractional values occur
  (timeMultiplier, accumulatedMinutes, quality, yield computation) and by
  the integers elsewhere.  Date.now() wall-clock samples are integers
  (milliseconds).
- Scene state (menus, battles) that gates the clock is passed in as an
  explicit boolean argument, and the wall clock as an explicit argument,
  since both are ambient inputs in the source.
-/

/-- JS Math.floor(a / b) for integer operands. -/
def jsFloorDiv (a b : ℤ) : ℤ := Int.fdiv a b

/-- JS remainder a % b, truncated toward zero, for integer operands. -/
def jsMod (a b : ℤ) : ℤ := Int.tmod a b

/-- Constant HOURS_PER_DAY of HDB_Core_TimeClock.js. -/
def HOURS_PER_DAY : ℤ := 24

/-- Constant MINUTES_PER_HOUR of HDB_Core_TimeClock.js. -/
def MINUTES_PER_HOUR : ℤ := 60

/-- Constant SEASONS_PER_YEAR of HDB_Core_TimeClock.js. -/
def SEASONS_PER_YEAR : ℤ := 4

/-- Configuration fields set by TimeSystem.loadParameters.  timeMultiplier
is the derived quantity 1440 / (realMinutesPerGameDay * 60). -/
structure ClockConfig where
  timeMultiplier : ℚ
  dayEndHour : ℤ
  dayStartHour : ℤ
  seasonLength : ℤ
  startingSeason : ℤ
  startingYear : ℤ
deriving DecidableEq

/-- Mutable fields of the TimeSystem instance that the embedded operations
read or write.  lastDay models the private field written as an underscore
name in the source (the last day for which a day-change event fired). -/
structure ClockState where
  currentTime : ℤ
  lastUpdateTime : ℤ
  accumulatedMinutes : ℚ
  isTimePaused : Bool
  currentDay : ℤ
  currentSeason : ℤ
  currentYear : ℤ
  lastDay : Option ℤ
  totalMenuTime : ℤ
  menuOpenTime : Option ℤ
deriving DecidableEq

/-- The record returned by TimeSystem.getCurrentTime.  The seasonName field
of the source is a pure lookup of season in the SEASONS array and is
omitted, being determined by season. -/
structure GameTime where
  year : ℤ
  month : ℤ
  day : ℤ
  hour : ℤ
  minute : ℤ
  season : ℤ
deriving DecidableEq

/-- Hour-of-day derivation used at HDB_Core_TimeClock.js:542 and 470:
Math.floor((totalMinutes % (HOURS_PER_DAY * MINUTES_PER_HOUR)) / MINUTES_PER_HOUR). -/
def derivedHour (totalMinutes : ℤ) : ℤ :=
  jsFloorDiv (jsMod totalMinutes (HOURS_PER_DAY * MINUTES_PER_HOUR)) MINUTES_PER_HOUR

/-- TimeSystem.isAtTimeLimit (HDB_Core_TimeClock.js:541-544). -/
def isAtTimeLimit (cfg : ClockConfig) (s : ClockState) : Bool :=
  decide (cfg.dayEndHour ≤ derivedHour s.currentTime)

/-- TimeSystem.handleDayChange (HDB_Core_TimeClock.js:360-379); only the
state writes are modelled, the event emissions do not change state. -/
def handleDayChange (cfg : ClockConfig) (s : ClockState) : ClockState :=
  let newSeason := jsMod (jsFloorDiv (s.currentDay - 1) cfg.seasonLength) SEASONS_PER_YEAR
  let newYear := jsFloorDiv (s.currentDay - 1) (cfg.seasonLength * SEASONS_PER_YEAR) + cfg.startingYear
  { s with currentSeason := newSeason, currentYear := newYear }

/-- TimeSystem.updateTime (HDB_Core_TimeClock.js:256-358).  now is the
Date.now() sample, gamePaused the value of isGamePaused() (a scene check).
The trailing visual emitTimeUpdate call does not change state. -/
def updateTime (cfg : ClockConfig) (now : ℤ) (gamePaused : Bool) (s : ClockState) : ClockState :=
  let realTimeDiff := now - s.lastUpdateTime
  if 1000 ≤ realTimeDiff ∧ gamePaused = false ∧ isAtTimeLimit cfg s = false ∧ s.isTimePaused = false then
    let newMinutes : ℚ := ((realTimeDiff : ℚ) / 1000) * cfg.timeMultiplier
    let accumulated := s.accumulatedMinutes + newMinutes
    if 1 ≤ accumulated then
      let gameMinutes : ℤ := ⌊accumulated⌋
      let accumulated' := accumulated - (gameMinutes : ℚ)
      if 0 < gameMinutes then
        let totalMinutes := s.currentTime + gameMinutes
        let minutesPerDay := HOURS_PER_DAY * MINUTES_PER_HOUR
        let minutesPerSeason := cfg.seasonLength * minutesPerDay
        let minutesPerYear := 4 * minutesPerSeason
        let newDay := jsFloorDiv totalMinutes minutesPerDay + 1
        let newSeason := jsFloorDiv (jsMod totalMinutes minutesPerYear) minutesPerSeason
        let newYear := jsFloorDiv totalMinutes minutesPerYear + cfg.startingYear
        let s1 : ClockState :=
          { s with currentTime := totalMinutes, lastUpdateTime := now,
                   accumulatedMinutes := accumulated',
                   currentDay := newDay, currentSeason := newSeason, currentYear := newYear }
        if s.lastDay ≠ some newDay then
          { handleDayChange cfg s1 with lastDay := some newDay }
        else s1
      else { s with accumulatedMinutes := accumulated' }
    else { s with accumulatedMinutes := accumulated }
  else s

/-- TimeSystem.pauseTime (HDB_Core_TimeClock.js:546-552). -/
def pauseTime (s : ClockState) : ClockState :=
  { s with isTimePaused := true }

/-- TimeSystem.resumeTime (HDB_Core_TimeClock.js:554-557).  Note that the
source only clears the flag; it does not touch lastUpdateTime. -/
def resumeTime (s : ClockState) : ClockState :=
  { s with isTimePaused := false }

/-- TimeSystem.sleepUntilNextDay (HDB_Core_TimeClock.js:559-593).  now is
the Date.now() sample.  The final handleDayChange and emitTimeUpdate calls
of the source are modelled; the emissions themselves change no state. -/
def sleepUntilNextDay (cfg : ClockConfig) (now : ℤ) (s : ClockState) : ClockState :=
  let minutesPerDay := HOURS_PER_DAY * MINUTES_PER_HOUR
  let currentDayMinutes := jsMod s.currentTime minutesPerDay
  let minutesToNextDay := (minutesPerDay - currentDayMinutes) + cfg.dayStartHour * MINUTES_PER_HOUR
  let totalMinutes := s.currentTime + minutesToNextDay
  let newDay := jsFloorDiv totalMinutes minutesPerDay + 1
  let newSeason := jsFloorDiv (jsMod totalMinutes (minutesPerDay * cfg.seasonLength * 4)) (minutesPerDay * cfg.seasonLength)
  let newYear := jsFloorDiv totalMinutes (minutesPerDay * cfg.seasonLength * 4) + cfg.startingYear
  let s1 : ClockState :=
    { s with currentTime := totalMinutes, lastUpdateTime := now, accumulatedMinutes := 0,
             currentDay := newDay, currentSeason := newSeason, currentYear := newYear,
             isTimePaused := false }
  handleDayChange cfg s1

/-- TimeSystem.getCurrentTime (HDB_Core_TimeClock.js:453-490).  The guard
on a falsy currentTime (the value 0) reinitializes several fields, so the
operation returns the new state alongside the GameTime value. -/
def getCurrentTime (cfg : ClockConfig) (now : ℤ) (s : ClockState) : GameTime × ClockState :=
  let s' := if s.currentTime = 0 then
      { s with currentTime := 0, currentDay := 1, currentSeason := cfg.startingSeason,
               currentYear := cfg.startingYear, lastUpdateTime := now,
               totalMenuTime := 0, menuOpenTime := none }
    else s
  let totalMinutes := s'.currentTime
  let minutesPerDay := HOURS_PER_DAY * MINUTES_PER_HOUR
  let currentDayMinutes := jsMod totalMinutes minutesPerDay
  let hour := jsFloorDiv currentDayMinutes MINUTES_PER_HOUR
  let minute := jsMod currentDayMinutes MINUTES_PER_HOUR
  ({ year := s'.currentYear, month := s'.currentSeason * 3 + 1, day := s'.currentDay,
     hour := hour, minute := minute, season := s'.currentSeason }, s')

/-- Result of Number(x) || d in loadParameters: Number of a non-numeric
string is NaN (modelled none); NaN || d and 0 || d both give d; any other
numeric value, including a negative one, is kept. -/
def jsNumberOr (v : Option ℚ) (d : ℚ) : ℚ :=
  match v with
  | none => d
  | some x => if x = 0 then d else x

/-- Day-length portion of TimeSystem.loadParameters
(HDB_Core_TimeClock.js:182-218): parse realMinutesPerGameDay with
Number(raw) || 15 and derive timeMultiplier = 1440 / (value * 60). -/
def loadTimeMultiplier (rawRealMinutesPerGameDay : Option ℚ) : ℚ :=
  let realMinutesPerGameDay := jsNumberOr rawRealMinutesPerGameDay 15
  1440 / (realMinutesPerGameDay * 60)

/-- Pure calendar derivation from a total-minutes counter, exactly the
formulas of TimeSystem.updateTime lines 296-308 (day, season, year) and
TimeSystem.getCurrentTime lines 465-483 (hour, minute, month). -/
def deriveGameTime (seasonLength startingYear : ℤ) (totalMinutes : ℤ) : GameTime :=
  let minutesPerDay := HOURS_PER_DAY * MINUTES_PER_HOUR
  let minutesPerSeason := seasonLength * minutesPerDay
  let minutesPerYear := 4 * minutesPerSeason
  let day := jsFloorDiv totalMinutes minutesPerDay + 1
  let season := jsFloorDiv (jsMod totalMinutes minutesPerYear) minutesPerSeason
  let year := jsFloorDiv totalMinutes minutesPerYear + startingYear
  let currentDayMinutes := jsMod totalMinutes minutesPerDay
  let hour := jsFloorDiv currentDayMinutes MINUTES_PER_HOUR
  let minute := jsMod currentDayMinutes MINUTES_PER_HOUR
  { year := year, month := season * 3 + 1, day := day,
    hour := hour, minute := minute, season := season }

/-- Reconstruction of the total-minutes counter from derived calendar
fields: the day field is the global 1-based day count, so the counter is
(day - 1) * 1440 plus the minutes into the day. -/
def reconstructTotalMinutes (t : GameTime) : ℤ :=
  (t.day - 1) * (HOURS_PER_DAY * MINUTES_PER_HOUR) + t.hour * MINUTES_PER_HOUR + t.minute

/-- Per-species record parsed from the Plant Database plugin parameter of
HDB_Core_Gardening.js.  Only the fields the embedded Plant operations read
are modelled; name, type and seasons are presentation data never read by
the modelled methods. -/
structure PlantData where
  id : String
  stages : ℤ
  daysPerStage : ℤ
  multiHarvest : Bool
  harvestInterval : ℤ
deriving DecidableEq

/-- Mutable fields of a Plant instance (HDB_Core_Gardening.js:175-220).
yieldVal models the field named yield in the source; readyToHarvest starts
unset (falsy), modelled false. -/
structure Plant where
  plantData : PlantData
  plantDay : ℤ
  plantSeason : ℤ
  plantYear : ℤ
  growthStage : ℤ
  waterLevel : ℤ
  quality : ℚ
  yieldVal : ℤ
  wateredToday : Bool
  fertilized : Bool
  pollinationStatus : ℤ
  lastHarvestDay : Option ℤ
  harvestCount : ℤ
  readyToHarvest : Bool
deriving DecidableEq

/-- Record returned by Plant.harvest (HDB_Core_Gardening.js:365-370).
The field named type in the source is modelled as plantType. -/
structure HarvestData where
  plantType : String
  yieldVal : ℤ
  quality : ℚ
  daysGrown : ℤ
deriving DecidableEq

/-- Plant.calculateYield (HDB_Core_Gardening.js:222-228):
Math.floor(baseYield * (1 + waterLevel / 100 + (fertilized ? 0.5 : 0)))
with baseYield 1 for multi-harvest species and 2 otherwise. -/
def calculateYield (p : Plant) : ℤ :=
  let baseYield : ℚ := if p.plantData.multiHarvest then 1 else 2
  let careBonus : ℚ := (p.waterLevel : ℚ) / 100 + (if p.fertilized then 1/2 else 0)
  ⌊baseYield * (1 + careBonus)⌋

/-- The Plant constructor for a new, non-restored plant
(HDB_Core_Gardening.js:176-220): planting time captured from the given
current time, stage 0, water 50, quality 1.  In the source the yield field
is computed before the fertilized field is assigned, so the undefined
fertilized reads as falsy there; computing it with fertilized false is
value-equal. -/
def newPlant (plantData : PlantData) (currentTime : GameTime) : Plant :=
  let base : Plant :=
    { plantData := plantData,
      plantDay := currentTime.day, plantSeason := currentTime.season,
      plantYear := currentTime.year,
      growthStage := 0, waterLevel := 50, quality := 1, yieldVal := 0,
      wateredToday := false, fertilized := false, pollinationStatus := 0,
      lastHarvestDay := none, harvestCount := 0, readyToHarvest := false }
  { base with yieldVal := calculateYield base }

/-- Plant.getDaysSincePlanting (HDB_Core_Gardening.js:308-330).  Note the
hard-coded 28-day season length in the source. -/
def getDaysSincePlanting (p : Plant) (currentTime : GameTime) : ℤ :=
  (currentTime.year - p.plantYear) * 28 * 4 +
  (currentTime.season - p.plantSeason) * 28 +
  (currentTime.day - p.plantDay)

/-- Plant.getDaysSinceLastHarvest (HDB_Core_Gardening.js:303-306).  The
source guard is a falsy test, so a stored value 0 behaves like absent. -/
def getDaysSinceLastHarvest (p : Plant) (currentTime : GameTime) : ℤ :=
  if p.lastHarvestDay = none ∨ p.lastHarvestDay = some 0 then 0
  else getDaysSincePlanting p currentTime - p.lastHarvestDay.getD 0

/-- Plant.isReadyToHarvest (HDB_Core_Gardening.js:291-301).  The
lastHarvestDay guard is a falsy test in the source. -/
def isReadyToHarvest (p : Plant) (currentTime : GameTime) : Bool :=
  if p.growthStage < p.plantData.stages - 1 then false
  else if p.plantData.multiHarvest then
    if p.lastHarvestDay = none ∨ p.lastHarvestDay = some 0 then true
    else decide (p.plantData.harvestInterval ≤ getDaysSinceLastHarvest p currentTime)
  else true

/-- Plant.update (HDB_Core_Gardening.js:230-289): stage recomputation with
an upper clamp only, water decay when not watered today, reset of the
wateredToday flag, then the readiness check, which only ever sets the
readyToHarvest flag to true. -/
def update (currentTime : GameTime) (p : Plant) : Plant :=
  let daysSincePlanting := getDaysSincePlanting p currentTime
  let newStage := min (jsFloorDiv daysSincePlanting p.plantData.daysPerStage) (p.plantData.stages - 1)
  let p1 := { p with growthStage := newStage }
  let p2 := { p1 with waterLevel := if p1.wateredToday = false then max 0 (p1.waterLevel - 10) else p1.waterLevel }
  let p3 := { p2 with wateredToday := false }
  if isReadyToHarvest p3 currentTime then { p3 with readyToHarvest := true } else p3

/-- Plant.water (HDB_Core_Gardening.js:340-349). -/
def water (p : Plant) : Bool × Plant :=
  if p.wateredToday = false then
    (true, { p with waterLevel := min 100 (p.waterLevel + 30),
                    wateredToday := true,
                    quality := min 3 (p.quality + 1/2) })
  else (false, p)

/-- Plant.fertilize (HDB_Core_Gardening.js:351-360): the yield field is
recomputed after fertilized and quality are updated. -/
def fertilize (p : Plant) : Bool × Plant :=
  if p.fertilized = false then
    let p1 := { p with fertilized := true, quality := min 3 (p.quality + 1/2) }
    (true, { p1 with yieldVal := calculateYield p1 })
  else (false, p)

/-- Plant.harvest (HDB_Core_Gardening.js:362-383).  Returns none (the
source returns false) when not ready; otherwise returns the harvest record
built from the stored yield field, records the day count in
lastHarvestDay, increments harvestCount, and for multi-harvest species
clears the readyToHarvest and fertilized flags. -/
def harvest (currentTime : GameTime) (p : Plant) : Option HarvestData × Plant :=
  if isReadyToHarvest p currentTime = false then (none, p)
  else
    let harvestData : HarvestData :=
      { plantType := p.plantData.id, yieldVal := p.yieldVal,
        quality := p.quality, daysGrown := getDaysSincePlanting p currentTime }
    let p1 := { p with lastHarvestDay := some (getDaysSincePlanting p currentTime),
                       harvestCount := p.harvestCount + 1 }
    let p2 := if p.plantData.multiHarvest
      then { p1 with readyToHarvest := false, fertilized := false }
      else p1
    (some harvestData, p2)

/-- Formula of the specification for daysElapsed, parameterized by the
configured season length.  Modelled from the spec for comparison with the
source function getDaysSincePlanting. -/
def specDaysElapsed (seasonLengthDays : ℤ) (plantDay plantSeason plantYear : ℤ) (currentTime : GameTime) : ℤ :=
  (currentTime.year - plantYear) * 4 * seasonLengthDays +
  (currentTime.season - plantSeason) * seasonLengthDays +
  (currentTime.day - plantDay)

/-- Concrete configuration: realMinutesPerGameDay 1, hence timeMultiplier
1440 / 60 = 24 game-minutes per real second; default calendar options. -/
def cfgFast : ClockConfig :=
  { timeMultiplier := 24, dayEndHour := 23, dayStartHour := 6,
    seasonLength := 28, startingSeason := 0, startingYear := 1 }

/-- Concrete clock state at the epoch, unpaused. -/
def stateZero : ClockState :=
  { currentTime := 0, lastUpdateTime := 0, accumulatedMinutes := 0,
    isTimePaused := false, currentDay := 1, currentSeason := 0, currentYear := 1,
    lastDay := none, totalMenuTime := 0, menuOpenTime := none }

/-- Concrete clock state whose derived hour is 23, at the day-end limit of
cfgFast. -/
def stateAtLimit : ClockState := { stateZero with currentTime := 1380 }

/-- Concrete fresh clock state with a falsy (zero) currentTime and a
nonzero wall-clock baseline. -/
def stateFresh : ClockState := { stateZero with lastUpdateTime := 5 }

/-- Species record matching the default carrot entry of the Plant Database
parameter: 3 stages, 3 days per stage, single harvest. -/
def carrotData : PlantData :=
  { id := "carrot", stages := 3, daysPerStage := 3, multiHarvest := false,
    harvestInterval := 3 }

/-- GameTime on a given global day of season 0, year 1, midnight. -/
def gtDay (d : ℤ) : GameTime :=
  { year := 1, month := 1, day := d, hour := 0, minute := 0, season := 0 }

/-- Plant created on day 5 (used with an earlier current time). -/
def plantLate : Plant := newPlant carrotData (gtDay 5)

/-- Plant created at the epoch under a season length of 1 day. -/
def plantSeasonOne : Plant := newPlant carrotData (deriveGameTime 1 1 0)

/-- Care sequence: plant a carrot on day 1, water it, tick on day 2, water
again, tick on day 7; the plant reaches the final stage with water level
100 while its stored yield field still reflects the creation-time water
level of 50. -/
def plantGrown : Plant :=
  update (gtDay 7) (water (update (gtDay 2) (water (newPlant carrotData (gtDay 1))).2)).2

theorem jsMod_eq_emod (a b : ℤ) (ha : 0 ≤ a) (hb : 0 ≤ b) : jsMod a b = a % b :=
  Int.tmod_eq_emod ha hb

theorem jsFloorDiv_eq_ediv (a b : ℤ) (hb : 0 ≤ b) : jsFloorDiv a b = a / b :=
  Int.fdiv_eq_ediv a hb

theorem minutesPerDay_eq : HOURS_PER_DAY * MINUTES_PER_HOUR = (1440 : ℤ) := by
  norm_num [HOURS_PER_DAY, MINUTES_PER_HOUR]

theorem derivedHour_eq (tm : ℤ) (h : 0 ≤ tm) : derivedHour tm = tm % 1440 / 60 := by
  unfold derivedHour
  rw [minutesPerDay_eq, jsMod_eq_emod _ _ h (by norm_num),
    jsFloorDiv_eq_ediv _ _ (by norm_num [MINUTES_PER_HOUR])]
  norm_num [MINUTES_PER_HOUR]

theorem updateTime_advances (cfg : ClockConfig) (now : ℤ) (gamePaused : Bool)
    (s : ClockState)
    (h1 : 1000 ≤ now - s.lastUpdateTime) (h2 : gamePaused = false)
    (h3 : isAtTimeLimit cfg s = false) (h4 : s.isTimePaused = false)
    (g : ℤ) (hg : 0 < g)
    (hfloor : ⌊s.accumulatedMinutes + ((now - s.lastUpdateTime : ℤ) : ℚ) / 1000 * cfg.timeMultiplier⌋ = g) :
    (updateTime cfg now gamePaused s).currentTime = s.currentTime + g := by
  have hacc : (1:ℚ) ≤ s.accumulatedMinutes + ((now - s.lastUpdateTime : ℤ) : ℚ) / 1000 * cfg.timeMultiplier := by
    have h5 : (1:ℤ) ≤ ⌊s.accumulatedMinutes + ((now - s.lastUpdateTime : ℤ) : ℚ) / 1000 * cfg.timeMultiplier⌋ := by
      omega
    exact_mod_cast Int.le_floor.mp h5
  simp only [updateTime]
  rw [if_pos ⟨h1, h2, h3, h4⟩, if_pos hacc, hfloor, if_pos hg,
    apply_ite ClockState.currentTime]
  simp [handleDayChange]

/-- C1: the source resumeTime only clears the pause flag and does not
reset the wall-clock baseline lastUpdateTime, so the wall-clock interval
that passed while explicitly paused is credited as elapsed game time by
the next tick: with timeMultiplier 24, pausing at wall-clock 0, resuming
10 real seconds later and ticking adds the full 240 game-minutes (10
seconds times 24), where the claim requires 0. -/
theorem resumeTime_credits_paused_interval :
    (resumeTime (pauseTime stateZero)).lastUpdateTime = stateZero.lastUpdateTime
    ∧ (updateTime cfgFast 10000 false (resumeTime (pauseTime stateZero))).currentTime
        = stateZero.currentTime + 240 := by
  have hstate : resumeTime (pauseTime stateZero) = stateZero := rfl
  refine ⟨rfl, ?_⟩
  rw [hstate]
  exact updateTime_advances cfgFast 10000 false stateZero (by decide) rfl (by decide)
    rfl 240 (by decide) (by norm_num [stateZero, cfgFast])

/-- C3: for every configuration with seasonLength at least 1 and every
non-negative total-minutes counter, rebuilding the counter from the
derived (year, season, day, hour, minute) fields returns it exactly; the
derivation is invertible. -/
theorem reconstruct_deriveGameTime (seasonLength startingYear totalMinutes : ℤ)
    (_hL : 1 ≤ seasonLength) (hTm : 0 ≤ totalMinutes) :
    reconstructTotalMinutes (deriveGameTime seasonLength startingYear totalMinutes)
      = totalMinutes := by
  have hmod : (0:ℤ) ≤ totalMinutes % 1440 := Int.emod_nonneg _ (by norm_num)
  simp only [reconstructTotalMinutes, deriveGameTime, minutesPerDay_eq]
  rw [jsMod_eq_emod _ _ hTm (by norm_num), jsFloorDiv_eq_ediv _ _ (by norm_num),
    jsFloorDiv_eq_ediv _ _ (by norm_num [MINUTES_PER_HOUR]),
    jsMod_eq_emod _ _ hmod (by norm_num [MINUTES_PER_HOUR])]
  norm_num [MINUTES_PER_HOUR]
  omega

theorem reconstruct_deriveGameTime_witness :
    (1:ℤ) ≤ 28 ∧ (0:ℤ) ≤ 5000
    ∧ reconstructTotalMinutes (deriveGameTime 28 1 5000) = 5000 :=
  ⟨by decide, by decide, reconstruct_deriveGameTime 28 1 5000 (by decide) (by decide)⟩

/-- C4 counterexample: under a configured season length of 1 day, for a
plant created at the clock epoch and the clock time one full year later
(totalMinutes 5760), the source computation returns 116 while the claimed
formula with the configured season length gives 8. -/
theorem getDaysSincePlanting_ignores_config :
    getDaysSincePlanting plantSeasonOne (deriveGameTime 1 1 5760) = 116
    ∧ specDaysElapsed 1 plantSeasonOne.plantDay plantSeasonOne.plantSeason
        plantSeasonOne.plantYear (deriveGameTime 1 1 5760) = 8
    ∧ getDaysSincePlanting plantSeasonOne (deriveGameTime 1 1 5760)
        ≠ specDaysElapsed 1 plantSeasonOne.plantDay plantSeasonOne.plantSeason
            plantSeasonOne.plantYear (deriveGameTime 1 1 5760) := by
  refine ⟨by decide, by decide, by decide⟩

/-- C4 amended: the days-elapsed computation equals the claimed formula
with seasonLengthDays fixed at the hard-coded constant 28, for every plant
and current time, regardless of the configured season length. -/
theorem getDaysSincePlanting_eq_spec28 (p : Plant) (currentTime : GameTime) :
    getDaysSincePlanting p currentTime
      = specDaysElapsed 28 p.plantDay p.plantSeason p.plantYear currentTime := by
  simp only [getDaysSincePlanting, specDaysElapsed]
  ring

/-- C5 counterexample: for a plant created on day 5 updated at day 1 of
the same season and year (days elapsed -4, daysPerStage 3), update stores
growth stage -2: the computed stage is clamped above by stages - 1 but
never below by 0. -/
theorem update_stores_negative_stage :
    (update (gtDay 1) plantLate).growthStage = -2
    ∧ (update (gtDay 1) plantLate).growthStage < 0 := by
  refine ⟨by decide, by decide⟩

/-- C5 amended: creation, water, fertilize and harvest keep the stored
growth stage where it was (0 at creation), and update keeps it inside
[0, stages - 1] provided the days elapsed at that update are non-negative
(current time not before planting time) and the species has stages at
least 1 and daysPerStage at least 1; when days elapsed are negative the
stored stage can go negative, as the counterexample shows. -/
theorem growthStage_bounds (p : Plant) (pd : PlantData) (ct ct0 : GameTime)
    (hdays : 0 ≤ getDaysSincePlanting p ct)
    (hstages : 1 ≤ p.plantData.stages)
    (hdps : 1 ≤ p.plantData.daysPerStage) :
    (newPlant pd ct0).growthStage = 0
    ∧ (0 ≤ (update ct p).growthStage
        ∧ (update ct p).growthStage ≤ p.plantData.stages - 1)
    ∧ (water p).2.growthStage = p.growthStage
    ∧ (fertilize p).2.growthStage = p.growthStage
    ∧ ((harvest ct p).2).growthStage = p.growthStage := by
  have hup : (update ct p).growthStage
      = min (jsFloorDiv (getDaysSincePlanting p ct) p.plantData.daysPerStage)
          (p.plantData.stages - 1) := by
    simp only [update]
    split <;> (try split) <;> rfl
  refine ⟨rfl, ⟨?_, ?_⟩, ?_, ?_, ?_⟩
  · rw [hup]
    exact le_min (Int.fdiv_nonneg hdays (by omega)) (by omega)
  · rw [hup]
    exact min_le_right _ _
  · simp only [water]
    split <;> rfl
  · simp only [fertilize]
    split <;> rfl
  · simp only [harvest]
    split <;> (try split) <;> rfl

theorem growthStage_bounds_witness :
    0 ≤ getDaysSincePlanting plantGrown (gtDay 7)
    ∧ 1 ≤ plantGrown.plantData.stages
    ∧ 1 ≤ plantGrown.plantData.daysPerStage
    ∧ (0 ≤ (update (gtDay 7) plantGrown).growthStage
        ∧ (update (gtDay 7) plantGrown).growthStage ≤ plantGrown.plantData.stages - 1) :=
  ⟨by decide, by decide, by decide,
    (growthStage_bounds plantGrown carrotData (gtDay 7) (gtDay 1)
      (by decide) (by decide) (by decide)).2.1⟩

/-- C6 counterexample: on the fresh state (currentTime 0, the falsy guard)
getCurrentTime mutates the clock state, resetting the wall-clock baseline
lastUpdateTime from 5 to the current Date.now() sample 1000. -/
theorem getCurrentTime_mutates_fresh_state :
    ((getCurrentTime cfgFast 1000 stateFresh).2).lastUpdateTime = 1000
    ∧ stateFresh.lastUpdateTime = 5 := by
  refine ⟨by decide, by decide⟩

/-- C6 amended: whenever currentTime is nonzero (so the falsy
reinitialization guard does not fire), getCurrentTime leaves the state
unchanged and returns the same GameTime value on every call, independent
of the wall clock; for the fresh state with currentTime 0 it instead
reinitializes fields, including lastUpdateTime, as the counterexample
shows. -/
theorem getCurrentTime_pure_of_nonzero (cfg : ClockConfig) (now1 now2 : ℤ)
    (s : ClockState) (h : s.currentTime ≠ 0) :
    (getCurrentTime cfg now1 s).2 = s
    ∧ (getCurrentTime cfg now2 s).1 = (getCurrentTime cfg now1 s).1 := by
  constructor <;> simp [getCurrentTime, h]

theorem getCurrentTime_pure_witness :
    stateAtLimit.currentTime ≠ 0
    ∧ (getCurrentTime cfgFast 77 stateAtLimit).2 = stateAtLimit
    ∧ (getCurrentTime cfgFast 88 stateAtLimit).1 = (getCurrentTime cfgFast 77 stateAtLimit).1 :=
  ⟨by decide,
    (getCurrentTime_pure_of_nonzero cfgFast 77 88 stateAtLimit (by decide)).1,
    (getCurrentTime_pure_of_nonzero cfgFast 77 88 stateAtLimit (by decide)).2⟩

/-- C2: once the hour derived from the counter has reached dayEndHour,
every tick leaves the whole clock state, hence currentTime, unchanged, for
every wall-clock sample and scene state; sleepUntilNextDay always strictly
advances the counter, lands on an hour equal to dayStartHour of exactly
the following derived day, resets the fractional carry to 0 and clears the
explicit pause flag.  Stated for any state with a non-negative counter and
any configuration whose dayStartHour lies in [0, 23]. -/
theorem dayEnd_gating_and_sleep (cfg : ClockConfig) (s : ClockState)
    (hLimit : cfg.dayEndHour ≤ derivedHour s.currentTime)
    (hTm : 0 ≤ s.currentTime)
    (hStart0 : 0 ≤ cfg.dayStartHour) (hStart23 : cfg.dayStartHour ≤ 23) :
    (∀ now gamePaused, updateTime cfg now gamePaused s = s)
    ∧ ∀ now,
        s.currentTime < (sleepUntilNextDay cfg now s).currentTime
        ∧ derivedHour (sleepUntilNextDay cfg now s).currentTime = cfg.dayStartHour
        ∧ jsFloorDiv (sleepUntilNextDay cfg now s).currentTime 1440 + 1
            = (jsFloorDiv s.currentTime 1440 + 1) + 1
        ∧ (sleepUntilNextDay cfg now s).accumulatedMinutes = 0
        ∧ (sleepUntilNextDay cfg now s).isTimePaused = false := by
  have hAt : isAtTimeLimit cfg s = true := by
    simp [isAtTimeLimit, hLimit]
  constructor
  · intro now gamePaused
    simp [updateTime, hAt]
  · intro now
    have hmod0 : 0 ≤ s.currentTime % 1440 := Int.emod_nonneg _ (by norm_num)
    have hmodlt : s.currentTime % 1440 < 1440 := Int.emod_lt_of_pos _ (by norm_num)
    have hTmE : (sleepUntilNextDay cfg now s).currentTime
        = s.currentTime + ((1440 - s.currentTime % 1440) + cfg.dayStartHour * 60) := by
      simp only [sleepUntilNextDay, handleDayChange, minutesPerDay_eq]
      rw [jsMod_eq_emod _ _ hTm (by norm_num)]
      norm_num [MINUTES_PER_HOUR]
    have hTpos : 0 ≤ s.currentTime + ((1440 - s.currentTime % 1440) + cfg.dayStartHour * 60) := by
      omega
    refine ⟨?_, ?_, ?_, ?_, ?_⟩
    · rw [hTmE]
      omega
    · rw [hTmE, derivedHour_eq _ hTpos]
      omega
    · rw [hTmE, jsFloorDiv_eq_ediv _ _ (by norm_num), jsFloorDiv_eq_ediv _ _ (by norm_num)]
      omega
    · simp [sleepUntilNextDay, handleDayChange]
    · simp [sleepUntilNextDay, handleDayChange]

theorem dayEnd_gating_witness :
    cfgFast.dayEndHour ≤ derivedHour stateAtLimit.currentTime
    ∧ updateTime cfgFast 99999 false stateAtLimit = stateAtLimit
    ∧ derivedHour (sleepUntilNextDay cfgFast 50 stateAtLimit).currentTime = cfgFast.dayStartHour
    ∧ (sleepUntilNextDay cfgFast 50 stateAtLimit).accumulatedMinutes = 0 := by
  have h := dayEnd_gating_and_sleep cfgFast stateAtLimit (by decide) (by decide)
    (by decide) (by decide)
  exact ⟨by decide, h.1 99999 false, (h.2 50).2.1, (h.2 50).2.2.2.1⟩

/-- C7 counterexample: a carrot planted on day 1, watered, ticked on day
2, watered again and ticked on day 7 reaches water level 100 unfertilized
at the final stage; harvesting returns yield 3, the value stored at
creation from water level 50, while the claimed formula evaluated on the
state at the moment of harvest gives 4. -/
theorem harvest_returns_stale_yield :
    (harvest (gtDay 7) plantGrown).1.map HarvestData.yieldVal = some 3
    ∧ calculateYield plantGrown = 4 := by
  have hready : isReadyToHarvest plantGrown (gtDay 7) = true := by decide
  have hy1 : plantGrown.yieldVal = (newPlant carrotData (gtDay 1)).yieldVal := rfl
  have hy2 : (newPlant carrotData (gtDay 1)).yieldVal = 3 := by
    norm_num [newPlant, calculateYield, carrotData]
  have hwl : plantGrown.waterLevel = 100 := by decide
  have hfz : plantGrown.fertilized = false := by decide
  have hmh : plantGrown.plantData.multiHarvest = false := by decide
  constructor
  · simp only [harvest, hready, hy1, hy2]
    simp
  · rw [calculateYield, hwl, hfz, hmh]
    norm_num

/-- C7 amended: harvest on a plant that is not ready returns none and
leaves the plant unchanged; on a ready plant it returns a record whose
yield equals the stored yield field (last computed at creation or at the
most recent fertilize, not recomputed from the water level at harvest),
records the days-since-planting count in lastHarvestDay, increments
harvestCount by 1, and for recurring species clears the fertilized and
readyToHarvest flags, leaving the water level and quality untouched. -/
theorem harvest_spec (ct : GameTime) (p : Plant) :
    harvest ct p =
      if isReadyToHarvest p ct = true then
        (some { plantType := p.plantData.id, yieldVal := p.yieldVal,
                quality := p.quality, daysGrown := getDaysSincePlanting p ct },
         { p with lastHarvestDay := some (getDaysSincePlanting p ct),
                  harvestCount := p.harvestCount + 1,
                  readyToHarvest := if p.plantData.multiHarvest then false else p.readyToHarvest,
                  fertilized := if p.plantData.multiHarvest then false else p.fertilized })
      else (none, p) := by
  cases hb : isReadyToHarvest p ct <;> cases hm : p.plantData.multiHarvest <;>
    simp [harvest, hb, hm]

/-- C8: water on an already-watered plant returns false and changes
nothing; otherwise it returns true, marks the plant watered, raises the
water level by 30 capped at 100 and the quality by 0.5 capped at 3, and
changes nothing else. -/
theorem water_spec (p : Plant) :
    water p =
      if p.wateredToday = true then (false, p)
      else (true, { p with waterLevel := min 100 (p.waterLevel + 30),
                           wateredToday := true,
                           quality := min 3 (p.quality + 1/2) }) := by
  cases hw : p.wateredToday <;> simp [water, hw]

/-- C9 counterexample: a negative day-length parameter is not clamped to
the default 15: Number(-5) is truthy, so the raw value survives and the
derived time multiplier 1440 / (-5 * 60) is negative, unlike the value
obtained for a non-numeric parameter. -/
theorem loadTimeMultiplier_negative_not_clamped :
    loadTimeMultiplier (some (-5)) = -(24/5)
    ∧ ¬ (0 < loadTimeMultiplier (some (-5)))
    ∧ loadTimeMultiplier (some (-5)) ≠ loadTimeMultiplier none := by
  refine ⟨?_, ?_, ?_⟩ <;> norm_num [loadTimeMultiplier, jsNumberOr]

/-- C9 amended: a zero or non-numeric day-length parameter is clamped to
the default 15 real minutes per game day (multiplier 1440 / 900), and for
every non-negative parse result the derived time multiplier is positive;
negative values, however, pass through unclamped, as the counterexample
shows.  The embedded operations are total, so no configuration input can
make a clock operation throw. -/
theorem loadTimeMultiplier_clamped (raw : Option ℚ)
    (h : raw = none ∨ ∃ x, raw = some x ∧ 0 ≤ x) :
    0 < loadTimeMultiplier raw
    ∧ ((raw = none ∨ raw = some 0) → loadTimeMultiplier raw = 1440 / (15 * 60)) := by
  rcases h with h | ⟨x, rfl, hx⟩
  · subst h
    constructor
    · norm_num [loadTimeMultiplier, jsNumberOr]
    · intro
      norm_num [loadTimeMultiplier, jsNumberOr]
  · by_cases h0 : x = 0
    · subst h0
      constructor
      · norm_num [loadTimeMultiplier, jsNumberOr]
      · intro
        norm_num [loadTimeMultiplier, jsNumberOr]
    · have hx' : 0 < x := lt_of_le_of_ne hx (Ne.symm h0)
      constructor
      · simp only [loadTimeMultiplier, jsNumberOr, if_neg h0]
        positivity
      · rintro (h | h)
        · exact absurd h (by simp)
        · rw [Option.some_inj] at h
          exact absurd h h0

theorem loadTimeMultiplier_clamped_witness :
    ((some (0:ℚ) = none ∨ ∃ x, some (0:ℚ) = some x ∧ 0 ≤ x)
    ∧ 0 < loadTimeMultiplier (some 0)
    ∧ loadTimeMultiplier (some 0) = 1440 / (15 * 60)) := by
  have h : some (0:ℚ) = none ∨ ∃ x, some (0:ℚ) = some x ∧ 0 ≤ x :=
    Or.inr ⟨0, rfl, le_refl 0⟩
  exact ⟨h, (loadTimeMultiplier_clamped _ h).1,
    (loadTimeMultiplier_clamped _ h).2 (Or.inr rfl)⟩

/-- C10: for a plant whose quality lies in [1, 3], water and fertilize
each either leave the quality unchanged or move it to
min 3 (quality + 0.5), so quality is non-decreasing and never exceeds 3,
while update and harvest never change quality at all. -/
theorem quality_bounds (p : Plant) (ct : GameTime)
    (_hq1 : 1 ≤ p.quality) (hq3 : p.quality ≤ 3) :
    (p.quality ≤ (water p).2.quality ∧ (water p).2.quality ≤ 3
      ∧ ((water p).2.quality = p.quality ∨ (water p).2.quality = min 3 (p.quality + 1/2)))
    ∧ (p.quality ≤ (fertilize p).2.quality ∧ (fertilize p).2.quality ≤ 3
      ∧ ((fertilize p).2.quality = p.quality ∨ (fertilize p).2.quality = min 3 (p.quality + 1/2)))
    ∧ (update ct p).quality = p.quality
    ∧ ((harvest ct p).2).quality = p.quality := by
  have hmin1 : p.quality ≤ min 3 (p.quality + 1/2) := le_min hq3 (by linarith)
  have hmin2 : min 3 (p.quality + 1/2) ≤ 3 := min_le_left _ _
  refine ⟨?_, ?_, ?_, ?_⟩
  · cases hw : p.wateredToday
    · simp only [water, hw]
      exact ⟨hmin1, hmin2, Or.inr rfl⟩
    · simp [water, hw]
      exact hq3
  · cases hf : p.fertilized
    · simp only [fertilize, hf]
      exact ⟨hmin1, hmin2, Or.inr rfl⟩
    · simp [fertilize, hf]
      exact hq3
  · simp only [update]
    split <;> (try split) <;> rfl
  · simp only [harvest]
    split <;> (try split) <;> rfl

theorem quality_bounds_witness :
    1 ≤ (newPlant carrotData (gtDay 1)).quality
    ∧ (newPlant carrotData (gtDay 1)).quality ≤ 3
    ∧ (update (gtDay 7) (newPlant carrotData (gtDay 1))).quality
        = (newPlant carrotData (gtDay 1)).quality :=
  ⟨by norm_num [newPlant], by norm_num [newPlant],
    (quality_bounds (newPlant carrotData (gtDay 1)) (gtDay 7)
      (by norm_num [newPlant]) (by norm_num [newPlant])).2.2.1⟩
